import Mathlib

/-!
Shallow embedding of the QuestBoard reward/progression engine.

Sources embedded here:
* `src/modules/stats/stats.js` — level thresholds, `calculateLevel`,
  `updateUserStats`, `addXp`, `addCoins`.  (`calculateXpProgress` is not
  embedded: its percentage is computed by IEEE-754 double division and
  `Math.floor`, whose rounding this integer embedding does not model.)
* `src/modules/quests/quests.js` — `updateQuestStreak`, `createQuest`,
  `completeQuest` (reward switch with daily = 15 XP / 8 coins).
* the second quest module copy bundled with `src/modules/auth/auth.js` —
  its `completeQuest` (reward switch with daily = 10 XP / 1 coin).
* `src/modules/badges/badges.js` — `checkAndAwardBadges`.
* the SQL function `reset_daily_quests` and the table schemas from
  schema.sql and the daily-quest migration.

Modelling conventions:
* Calendar dates and timestamps are day numbers (`Nat`); the JavaScript
  code compares `YYYY-MM-DD` strings and divides millisecond differences
  by 86,400,000, which on pure dates is exactly integer day difference.
* JavaScript number arithmetic on the small integer quantities involved
  (XP, coins, streak counters) is exact, so it is modelled with
  `Nat`/`Int`.
* The external store (Supabase) is modelled as the data it holds: the
  in-memory quest list, the in-memory stats object of stats.js, and the
  user's `user_stats` row (`Option` — absent until first upserted).
  Quest insertion succeeds exactly when the row satisfies the schema's
  row-level constraints (`due_date NOT NULL` and the CHECK restricting
  `type` to daily/weekly/one_time — note `title NOT NULL` still accepts
  the empty string); the updates and upserts of the other embedded flows
  only write values those tables always accept, and the badge insert is
  reached only for not-yet-earned ids, so its uniqueness constraint is
  never hit.  Foreign-key validity (`user_id`, `template_id`) is not
  modelled: the embedding has a single valid user and the claims exercise
  `template_id = null` or ids taken from the template list itself.
* Store-generated values (UUIDs, `NOW()`) are passed in as parameters or
  fixed to an opaque value where the logic never reads them.
-/

namespace QuestBoard

/-- stats.js `LEVEL_THRESHOLDS`: index is the level, value is the XP needed
(index 0 unused). -/
def LEVEL_THRESHOLDS : List Nat :=
  [0, 0, 100, 250, 500, 1000, 2000, 3500, 5500, 8000, 12000]

/-- The `for` loop of stats.js `calculateLevel`: walk the thresholds from
index 1, remembering the last index whose threshold is ≤ xp, and `break`
at the first that is not. -/
def calcLevelLoop (xp : Nat) : List Nat → Nat → Nat → Nat
  | [], _, level => level
  | t :: rest, i, level =>
    if t ≤ xp then calcLevelLoop xp rest (i + 1) i else level

/-- stats.js `calculateLevel`. -/
def calculateLevel (xp : Nat) : Nat :=
  calcLevelLoop xp (LEVEL_THRESHOLDS.drop 1) 1 1

/-- The stats.js module-level `userStats` object.  It starts as
`{ xp: 0, coins: 0 }`; the `level` property only appears once written, so
it is an `Option`. -/
structure UserStatsMem where
  xp : Nat
  coins : Nat
  level : Option Nat
deriving Repr, DecidableEq

/-- A patch passed to stats.js `updateUserStats`: any subset of the three
properties may be present. -/
structure StatsPatch where
  xp : Option Nat := none
  coins : Option Nat := none
  level : Option Nat := none
deriving Repr, DecidableEq

/-- stats.js `updateUserStats`: object spread of the patch over the current
stats, then, if the patch carried an `xp` property, recompute `level` from
the merged `xp`. -/
def updateUserStats (patch : StatsPatch) (s : UserStatsMem) : UserStatsMem :=
  let merged : UserStatsMem :=
    { xp := patch.xp.getD s.xp
      coins := patch.coins.getD s.coins
      level := match patch.level with
               | some l => some l
               | none => s.level }
  match patch.xp with
  | some _ => { merged with level := some (calculateLevel merged.xp) }
  | none => merged

/-- stats.js `addXp`. -/
def addXp (amount : Nat) (s : UserStatsMem) : UserStatsMem :=
  { s with xp := s.xp + amount, level := some (calculateLevel (s.xp + amount)) }

/-- stats.js `addCoins`. -/
def addCoins (amount : Nat) (s : UserStatsMem) : UserStatsMem :=
  { s with coins := s.coins + amount }

/-- One `user_stats` row of the store (schema.sql): XP, coins and the
streak columns.  `last_activity_date` is a nullable `DATE`. -/
structure DbUserStats where
  xp : Nat
  coins : Nat
  current_streak : Nat
  longest_streak : Nat
  last_activity_date : Option Nat
deriving Repr, DecidableEq

/-- quests.js `updateQuestStreak`, acting on the (possibly absent)
`user_stats` row of the completing user.  `today` is the user-local
calendar date; `new Date(a) - new Date(b)` on two date strings divided by
86,400,000 and floored is exactly their signed day difference.  The `|| 0`
and `|| 1` fallbacks of the JavaScript are modelled on `Nat` columns as
`getD 0` and zero tests. -/
def updateQuestStreak (today : Nat) (db : Option DbUserStats) : Option DbUserStats :=
  let lastDate := db.bind (·.last_activity_date)
  if lastDate = some today then
    db
  else
    let storedLongest := (db.map (·.longest_streak)).getD 0
    let newLongestStreak0 := if storedLongest = 0 then 1 else storedLongest
    let newStreak : Nat :=
      match lastDate with
      | some last =>
        let diffDays : Int := (today : Int) - (last : Int)
        if diffDays = 1 then (db.map (·.current_streak)).getD 0 + 1
        else if 1 < diffDays then 1
        else
          let cs := (db.map (·.current_streak)).getD 0
          if cs = 0 then 1 else cs
      | none => 1
    let newLongestStreak :=
      if newLongestStreak0 < newStreak then newStreak else newLongestStreak0
    some { xp := (db.map (·.xp)).getD 0
           coins := (db.map (·.coins)).getD 0
           current_streak := newStreak
           longest_streak := newLongestStreak
           last_activity_date := some today }

/-- The `current_streak` visible in a possibly-absent `user_stats` row
(0 when the row is absent, as rendered by the UI). -/
def currentStreakOf (db : Option DbUserStats) : Nat :=
  (db.map (·.current_streak)).getD 0

/-- One row of the `quests` table (columns of `QUEST_COLUMNS` in
quests.js).  The column called `type` is named `qtype` here. -/
structure Quest where
  id : Nat
  user_id : Nat
  title : String
  description : String
  qtype : String
  due_date : Option Nat
  completed : Bool
  created_at : Nat
  template_id : Option Nat
  reset_date : Nat
  is_recurring : Bool
deriving Repr, DecidableEq

/-- The reward `switch` of `completeQuest` in quests.js:
category ↦ (xpReward, coinReward). -/
def questsRewardForType (t : String) : Nat × Nat :=
  match t with
  | "daily" => (15, 8)
  | "weekly" => (50, 25)
  | "one_time" => (25, 15)
  | _ => (10, 5)

/-- The reward `switch` of `completeQuest` in the second quest module copy
(bundled with auth.js): category ↦ (xpReward, coinReward). -/
def authRewardForType (t : String) : Nat × Nat :=
  match t with
  | "daily" => (10, 1)
  | "weekly" => (50, 5)
  | "one_time" => (25, 3)
  | _ => (5, 1)

/-- The mutable state a quest module operates on: the module-level `quests`
array, the stats.js `userStats` object, and the user's `user_stats` row in
the store. -/
structure AppState where
  quests : List Quest
  mem : UserStatsMem
  db : Option DbUserStats
deriving Repr, DecidableEq

/-- The object `completeQuest` resolves with. -/
structure CompleteResult where
  success : Bool
  quest : Option Quest
  rewardXp : Nat
  rewardCoins : Nat
  error : Option String
deriving Repr, DecidableEq

/-- quests.js `completeQuest` (the version with the streak update and the
daily = 15 XP / 8 coins table), on the store's success path. -/
def completeQuest (questId today : Nat) (s : AppState) : CompleteResult × AppState :=
  match s.quests.find? (fun q => q.id == questId) with
  | none =>
    ({ success := false, quest := none, rewardXp := 0, rewardCoins := 0,
       error := some "Quest not found" }, s)
  | some quest =>
    if quest.completed then
      ({ success := true, quest := some quest, rewardXp := 0, rewardCoins := 0,
         error := none }, s)
    else
      let reward := questsRewardForType quest.qtype
      let updatedQuest := { quest with completed := true }
      let newQuests := s.quests.map (fun q => if q.id == questId then updatedQuest else q)
      let mem2 := addCoins reward.2 (addXp reward.1 s.mem)
      let db1 := updateQuestStreak today s.db
      let db2 := db1.map (fun row => { row with xp := mem2.xp, coins := mem2.coins })
      ({ success := true, quest := some updatedQuest, rewardXp := reward.1,
         rewardCoins := reward.2, error := none },
       { quests := newQuests, mem := mem2, db := db2 })

/-- `completeQuest` of the second quest module copy (bundled with auth.js):
no streak update, rewards switch on the lowercased type, daily = 10 XP /
1 coin. -/
def completeQuestAuth (questId : Nat) (s : AppState) : CompleteResult × AppState :=
  match s.quests.find? (fun q => q.id == questId) with
  | none =>
    ({ success := false, quest := none, rewardXp := 0, rewardCoins := 0,
       error := some "Quest not found" }, s)
  | some quest =>
    if quest.completed then
      ({ success := true, quest := some quest, rewardXp := 0, rewardCoins := 0,
         error := none }, s)
    else
      let persistedQuest := { quest with completed := true }
      let normalizedType := persistedQuest.qtype.toLower
      let reward := authRewardForType normalizedType
      let updatedQuest := persistedQuest
      let newQuests := s.quests.map (fun q => if q.id == questId then updatedQuest else q)
      let mem2 := addCoins reward.2 (addXp reward.1 s.mem)
      let db2 := s.db.map (fun row => { row with xp := mem2.xp, coins := mem2.coins })
      ({ success := true, quest := some updatedQuest, rewardXp := reward.1,
         rewardCoins := reward.2, error := none },
       { quests := newQuests, mem := mem2, db := db2 })

/-- One row of the `quest_templates` table. -/
structure QuestTemplate where
  id : Nat
  user_id : Nat
  title : String
  description : String
  ttype : String
  is_active : Bool
deriving Repr, DecidableEq

/-- The quest row the SQL function `reset_daily_quests` inserts for a
template: due at end of `today`, recurring, not completed.  The row id is
store-generated and never read by the reset logic, so it is fixed to 0. -/
def questFromTemplate (t : QuestTemplate) (today : Nat) : Quest :=
  { id := 0
    user_id := t.user_id
    title := t.title
    description := t.description
    qtype := t.ttype
    due_date := some today
    completed := false
    created_at := today
    template_id := some t.id
    reset_date := today
    is_recurring := true }

/-- SQL `reset_daily_quests` (daily-quest migration): loop over the active
daily templates; for each, insert a fresh instance unless a quest with
that `template_id` and `reset_date = CURRENT_DATE` already exists.  The
inserts of earlier loop iterations are visible to later existence checks,
exactly as in the single SQL transaction. -/
def reset_daily_quests (today : Nat) (templates : List QuestTemplate)
    (quests : List Quest) : List Quest :=
  templates.foldl
    (fun qs t =>
      if t.ttype == "daily" && t.is_active then
        if qs.any (fun q => q.template_id == some t.id && q.reset_date == today) then
          qs
        else
          qs ++ [questFromTemplate t today]
      else qs)
    quests

/-- The number of instances of template `tid` materialised for day `today`
in a quest list. -/
def countInstances (tid today : Nat) (qs : List Quest) : Nat :=
  (qs.filter (fun q => q.template_id == some tid && q.reset_date == today)).length

/-- One row of the `badges` catalog table.  The column called `type` is
named `btype` here. -/
structure Badge where
  id : Nat
  name : String
  description : String
  icon : String
  btype : String
  requirement : Nat
deriving Repr, DecidableEq

/-- The slice of user stats `checkAndAwardBadges` reads. -/
structure BadgeStats where
  current_streak : Nat
  level : Nat
deriving Repr, DecidableEq

/-- The `switch (badge.type)` of badges.js `checkAndAwardBadges`;
`weeklyCount` is the store's count of quests completed in the trailing
seven days (`getWeeklyQuestCount`). -/
def badgeShouldAward (badge : Badge) (stats : BadgeStats)
    (completedQuestsCount weeklyCount : Nat) : Bool :=
  match badge.btype with
  | "quest_count" => badge.requirement ≤ completedQuestsCount
  | "streak" => badge.requirement ≤ stats.current_streak
  | "level" => badge.requirement ≤ stats.level
  | "weekly" => badge.requirement ≤ weeklyCount
  | _ => false

/-- badges.js `checkAndAwardBadges`: walk the catalog, skip badges whose id
is already earned, award the rest whose threshold is met, and return the
newly earned ones in catalog order.  Inserts are modelled on their success
path (the `user_badges` uniqueness constraint is never hit, because
already-earned ids are skipped up front). -/
def checkAndAwardBadges (availableBadges : List Badge) (earnedBadgeIds : List Nat)
    (stats : BadgeStats) (completedQuestsCount weeklyCount : Nat) : List Badge :=
  match availableBadges with
  | [] => []
  | badge :: rest =>
    if earnedBadgeIds.contains badge.id then
      checkAndAwardBadges rest earnedBadgeIds stats completedQuestsCount weeklyCount
    else if badgeShouldAward badge stats completedQuestsCount weeklyCount then
      badge :: checkAndAwardBadges rest earnedBadgeIds stats completedQuestsCount weeklyCount
    else
      checkAndAwardBadges rest earnedBadgeIds stats completedQuestsCount weeklyCount

set_option maxHeartbeats 1000000 in
/-- Interval characterisation of `calculateLevel`, used by several proofs:
for every xp the level is determined by which gap of the threshold table
xp falls in. -/
theorem calculateLevel_spec (xp : Nat) :
    (xp < 100 ∧ calculateLevel xp = 1) ∨
    (100 ≤ xp ∧ xp < 250 ∧ calculateLevel xp = 2) ∨
    (250 ≤ xp ∧ xp < 500 ∧ calculateLevel xp = 3) ∨
    (500 ≤ xp ∧ xp < 1000 ∧ calculateLevel xp = 4) ∨
    (1000 ≤ xp ∧ xp < 2000 ∧ calculateLevel xp = 5) ∨
    (2000 ≤ xp ∧ xp < 3500 ∧ calculateLevel xp = 6) ∨
    (3500 ≤ xp ∧ xp < 5500 ∧ calculateLevel xp = 7) ∨
    (5500 ≤ xp ∧ xp < 8000 ∧ calculateLevel xp = 8) ∨
    (8000 ≤ xp ∧ xp < 12000 ∧ calculateLevel xp = 9) ∨
    (12000 ≤ xp ∧ calculateLevel xp = 10) := by
  simp only [calculateLevel, LEVEL_THRESHOLDS, List.drop, calcLevelLoop]
  split_ifs <;> omega

/-- C4: `calculateLevel` is monotonically non-decreasing in xp,
`calculateLevel 0 = 1`, and any xp at or above the top threshold of
`LEVEL_THRESHOLDS` yields the maximum level `LEVEL_THRESHOLDS.length - 1 = 10`. -/
theorem calculateLevel_monotone_base_capped :
    (∀ x y : Nat, x ≤ y → calculateLevel x ≤ calculateLevel y) ∧
    calculateLevel 0 = 1 ∧
    (∀ xp : Nat, LEVEL_THRESHOLDS.getD (LEVEL_THRESHOLDS.length - 1) 0 ≤ xp →
      calculateLevel xp = LEVEL_THRESHOLDS.length - 1) := by
  refine ⟨?_, by decide, ?_⟩
  · intro x y hxy
    have hx := calculateLevel_spec x
    have hy := calculateLevel_spec y
    omega
  · intro xp h
    have hx := calculateLevel_spec xp
    simp only [LEVEL_THRESHOLDS, List.length_cons, List.length_nil] at h ⊢
    simp only [List.getD] at h
    norm_num at h ⊢
    omega

/-- Witness for C4 at concrete inputs. -/
theorem calculateLevel_monotone_base_capped_witness :
    calculateLevel 90 ≤ calculateLevel 105 ∧
    calculateLevel 0 = 1 ∧
    calculateLevel 12345 = LEVEL_THRESHOLDS.length - 1 := by
  refine ⟨calculateLevel_monotone_base_capped.1 90 105 (by decide),
          calculateLevel_monotone_base_capped.2.1, ?_⟩
  have := calculateLevel_monotone_base_capped.2.2 12345 (by decide)
  simpa using this

/-- C10: `addXp` and any `updateUserStats` whose patch carries an xp value
leave the cached `level` equal to `calculateLevel` of the stored xp, and
`addCoins` changes neither xp nor level. -/
theorem stats_level_cache_invariant :
    (∀ (amount : Nat) (s : UserStatsMem),
      (addXp amount s).level = some (calculateLevel (addXp amount s).xp)) ∧
    (∀ (patch : StatsPatch) (s : UserStatsMem) (v : Nat), patch.xp = some v →
      (updateUserStats patch s).level =
        some (calculateLevel (updateUserStats patch s).xp)) ∧
    (∀ (amount : Nat) (s : UserStatsMem),
      (addCoins amount s).xp = s.xp ∧ (addCoins amount s).level = s.level) := by
  refine ⟨fun a s => rfl, ?_, fun a s => ⟨rfl, rfl⟩⟩
  intro patch s v hv
  simp only [updateUserStats, hv]

/-- Witness for C10 at a concrete patch. -/
theorem stats_level_cache_invariant_witness :
    (updateUserStats { xp := some 105 } { xp := 0, coins := 0, level := none }).level =
      some (calculateLevel
        (updateUserStats { xp := some 105 } { xp := 0, coins := 0, level := none }).xp) :=
  stats_level_cache_invariant.2.1 { xp := some 105 }
    { xp := 0, coins := 0, level := none } 105 rfl

/-- C7: the two quest-completion implementations use different
category-to-reward tables; on the category "daily" one pays 15 XP / 8
coins and the other 10 XP / 1 coin, so they are not extensionally equal as
reward functions. -/
theorem reward_tables_differ :
    questsRewardForType "daily" = (15, 8) ∧
    authRewardForType "daily" = (10, 1) ∧
    questsRewardForType "daily" ≠ authRewardForType "daily" :=
  ⟨rfl, rfl, by decide⟩

/-- C1: completing an already-completed quest is a no-op in both
completion implementations: the result is success with a zero reward and
the whole state — quest list, in-memory stats (xp, coins, level) and the
stored user stats row (streak included) — is unchanged. -/
theorem completeQuest_already_completed_noop
    (questId today : Nat) (s : AppState) (q : Quest)
    (hfind : s.quests.find? (fun q2 => q2.id == questId) = some q)
    (hdone : q.completed = true) :
    completeQuest questId today s =
      ({ success := true, quest := some q, rewardXp := 0, rewardCoins := 0,
         error := none }, s) ∧
    completeQuestAuth questId s =
      ({ success := true, quest := some q, rewardXp := 0, rewardCoins := 0,
         error := none }, s) := by
  constructor
  · unfold completeQuest
    rw [hfind]
    simp [hdone]
  · unfold completeQuestAuth
    rw [hfind]
    simp [hdone]

/-- Witness for C1 on a concrete one-quest state. -/
theorem completeQuest_already_completed_noop_witness :
    completeQuest 1 0
      { quests := [Quest.mk 1 1 "w" "" "daily" none true 0 none 0 false],
        mem := { xp := 7, coins := 3, level := some 1 }, db := none } =
      ({ success := true,
         quest := some (Quest.mk 1 1 "w" "" "daily" none true 0 none 0 false),
         rewardXp := 0, rewardCoins := 0, error := none },
       { quests := [Quest.mk 1 1 "w" "" "daily" none true 0 none 0 false],
         mem := { xp := 7, coins := 3, level := some 1 }, db := none }) ∧
    completeQuestAuth 1
      { quests := [Quest.mk 1 1 "w" "" "daily" none true 0 none 0 false],
        mem := { xp := 7, coins := 3, level := some 1 }, db := none } =
      ({ success := true,
         quest := some (Quest.mk 1 1 "w" "" "daily" none true 0 none 0 false),
         rewardXp := 0, rewardCoins := 0, error := none },
       { quests := [Quest.mk 1 1 "w" "" "daily" none true 0 none 0 false],
         mem := { xp := 7, coins := 3, level := some 1 }, db := none }) :=
  completeQuest_already_completed_noop 1 0
    { quests := [Quest.mk 1 1 "w" "" "daily" none true 0 none 0 false],
      mem := { xp := 7, coins := 3, level := some 1 }, db := none }
    (Quest.mk 1 1 "w" "" "daily" none true 0 none 0 false) rfl rfl

/-- C2: with a stored row whose `last_activity_date` is exactly yesterday,
one streak update sets `current_streak` to the old value plus 1, and the
new `longest_streak` is `max` of the old one and the new streak — in
particular it never decreases. -/
theorem streak_yesterday_increments (today : Nat) (row : DbUserStats)
    (h1 : 1 ≤ today) (h2 : row.last_activity_date = some (today - 1)) :
    ∃ row2, updateQuestStreak today (some row) = some row2 ∧
      row2.current_streak = row.current_streak + 1 ∧
      row2.longest_streak = max row.longest_streak (row.current_streak + 1) ∧
      row.longest_streak ≤ row2.longest_streak := by
  unfold updateQuestStreak
  simp only [Option.some_bind, h2, Option.some.injEq, Option.map_some', Option.getD_some]
  rw [if_neg (by omega)]
  rw [if_pos (by omega)]
  refine ⟨_, rfl, rfl, ?_, ?_⟩ <;>
    simp only [Option.map_some', Option.getD_some] <;>
    split_ifs <;> omega

/-- Witness for C2: streak 6 with activity yesterday becomes streak 7. -/
theorem streak_yesterday_increments_witness :
    ∃ row2, updateQuestStreak 20 (some (DbUserStats.mk 0 0 6 6 (some 19))) = some row2 ∧
      row2.current_streak = 7 ∧ row2.longest_streak = max 6 7 ∧ 6 ≤ row2.longest_streak :=
  streak_yesterday_increments 20 (DbUserStats.mk 0 0 6 6 (some 19)) (by decide) rfl

/-- Every streak update stamps `last_activity_date = today` on the row it
writes (or keeps). -/
theorem updateQuestStreak_last (today : Nat) (db : Option DbUserStats) :
    ∃ row2, updateQuestStreak today db = some row2 ∧
      row2.last_activity_date = some today := by
  unfold updateQuestStreak
  rcases db with _ | row
  · exact ⟨_, rfl, rfl⟩
  · rcases h : row.last_activity_date with _ | last
    · simp only [Option.some_bind, h]
      exact ⟨_, rfl, rfl⟩
    · simp only [Option.some_bind, h]
      by_cases htoday : last = today
      · rw [if_pos (by simp [htoday])]
        exact ⟨row, rfl, by rw [h, htoday]⟩
      · rw [if_neg (by simp [htoday])]
        exact ⟨_, rfl, rfl⟩

/-- A streak update is idempotent: the second update sees today's stamp
and returns without writing. -/
theorem updateQuestStreak_idem (today : Nat) (db : Option DbUserStats) :
    updateQuestStreak today (updateQuestStreak today db) =
      updateQuestStreak today db := by
  obtain ⟨row2, hrow, hlast⟩ := updateQuestStreak_last today db
  rw [hrow]
  unfold updateQuestStreak
  simp [hlast]

/-- One streak update raises `current_streak` by at most 1. -/
theorem updateQuestStreak_step_le (today : Nat) (db : Option DbUserStats) :
    currentStreakOf (updateQuestStreak today db) ≤ currentStreakOf db + 1 := by
  unfold updateQuestStreak currentStreakOf
  rcases db with _ | row
  · simp
  · rcases h : row.last_activity_date with _ | last <;>
      simp only [Option.some_bind, h, Option.map_some', Option.getD_some] <;>
      split_ifs <;>
      simp

/-- C3: a streak update on a row already stamped with today's date is a
no-op (all counters and the date unchanged); consequently any number of
same-day streak updates equals a single one, and `current_streak` grows by
at most 1 in total over them all. -/
theorem streak_same_day_at_most_once (today : Nat) :
    (∀ row : DbUserStats, row.last_activity_date = some today →
      updateQuestStreak today (some row) = some row) ∧
    (∀ (db : Option DbUserStats) (n : Nat), 1 ≤ n →
      (updateQuestStreak today)^[n] db = updateQuestStreak today db) ∧
    (∀ (db : Option DbUserStats) (n : Nat),
      currentStreakOf ((updateQuestStreak today)^[n] db) ≤ currentStreakOf db + 1) := by
  have hiter : ∀ (db : Option DbUserStats) (n : Nat), 1 ≤ n →
      (updateQuestStreak today)^[n] db = updateQuestStreak today db := by
    intro db n hn
    induction n with
    | zero => omega
    | succ m ih =>
      rcases Nat.eq_zero_or_pos m with hm | hm
      · subst hm
        simp
      · rw [Function.iterate_succ_apply', ih hm, updateQuestStreak_idem]
  refine ⟨?_, hiter, ?_⟩
  · intro row hrow
    unfold updateQuestStreak
    simp [hrow]
  · intro db n
    rcases Nat.eq_zero_or_pos n with hn | hn
    · subst hn
      simp
    · rw [hiter db n hn]
      exact updateQuestStreak_step_le today db

/-- Witness for C3: a row stamped today is returned unchanged, and three
same-day updates equal one. -/
theorem streak_same_day_at_most_once_witness :
    updateQuestStreak 20 (some (DbUserStats.mk 0 0 6 6 (some 20))) =
      some (DbUserStats.mk 0 0 6 6 (some 20)) ∧
    (updateQuestStreak 20)^[3] (some (DbUserStats.mk 0 0 6 6 (some 19))) =
      updateQuestStreak 20 (some (DbUserStats.mk 0 0 6 6 (some 19))) ∧
    currentStreakOf ((updateQuestStreak 20)^[3] (some (DbUserStats.mk 0 0 6 6 (some 19)))) ≤
      currentStreakOf (some (DbUserStats.mk 0 0 6 6 (some 19))) + 1 :=
  ⟨(streak_same_day_at_most_once 20).1 (DbUserStats.mk 0 0 6 6 (some 20)) rfl,
   (streak_same_day_at_most_once 20).2.1 (some (DbUserStats.mk 0 0 6 6 (some 19))) 3
     (by decide),
   (streak_same_day_at_most_once 20).2.2 (some (DbUserStats.mk 0 0 6 6 (some 19))) 3⟩

/-- Unfolding of `reset_daily_quests` over the head template. -/
theorem reset_daily_quests_cons (today : Nat) (t0 : QuestTemplate)
    (rest : List QuestTemplate) (qs : List Quest) :
    reset_daily_quests today (t0 :: rest) qs =
      reset_daily_quests today rest
        (if t0.ttype == "daily" && t0.is_active then
          (if qs.any (fun q => q.template_id == some t0.id && q.reset_date == today)
           then qs
           else qs ++ [questFromTemplate t0 today])
         else qs) := rfl

/-- Appending one quest adds its own contribution to an instance count. -/
theorem countInstances_append_singleton (tid today : Nat) (qs : List Quest)
    (x : Quest) :
    countInstances tid today (qs ++ [x]) =
      countInstances tid today qs +
        if x.template_id == some tid && x.reset_date == today then 1 else 0 := by
  unfold countInstances
  rw [List.filter_append, List.length_append]
  by_cases h : (x.template_id == some tid && x.reset_date == today) = true
  · simp [h]
  · simp [h]

/-- The existence check of the reset loop agrees with a positive instance
count. -/
theorem countInstances_pos_iff_any (tid today : Nat) (qs : List Quest) :
    (qs.any (fun q => q.template_id == some tid && q.reset_date == today) = true) ↔
      1 ≤ countInstances tid today qs := by
  unfold countInstances
  constructor
  · intro h
    rw [List.any_eq_true] at h
    obtain ⟨q, hq, hp⟩ := h
    have hmem : q ∈ qs.filter
        (fun q => q.template_id == some tid && q.reset_date == today) :=
      List.mem_filter.mpr ⟨hq, hp⟩
    have := List.length_pos_of_mem hmem
    omega
  · intro h
    have h0 : 0 < (qs.filter
        (fun q => q.template_id == some tid && q.reset_date == today)).length := by
      omega
    rw [List.length_pos_iff_exists_mem] at h0
    obtain ⟨q, hq⟩ := h0
    rw [List.any_eq_true]
    exact ⟨q, (List.mem_filter.mp hq).1, (List.mem_filter.mp hq).2⟩

/-- Once at least one instance of a template exists for today, the reset
loop never changes that template's instance count. -/
theorem reset_preserves_count (today tid : Nat) (templates : List QuestTemplate) :
    ∀ qs : List Quest, 1 ≤ countInstances tid today qs →
      countInstances tid today (reset_daily_quests today templates qs) =
        countInstances tid today qs := by
  induction templates with
  | nil => intro qs h; rfl
  | cons t0 rest ih =>
    intro qs h
    rw [reset_daily_quests_cons]
    split_ifs with hcond hany
    · exact ih qs h
    · rw [ih (qs ++ [questFromTemplate t0 today])
        (by rw [countInstances_append_singleton]; omega)]
      rw [countInstances_append_singleton]
      by_cases hid : t0.id = tid
      · exfalso
        apply hany
        rw [hid]
        exact (countInstances_pos_iff_any tid today qs).mpr h
      · simp [questFromTemplate, hid]
    · exact ih qs h

/-- If no instance of a daily active template exists yet, one pass of the
reset loop materialises exactly one. -/
theorem reset_creates_one (today tid : Nat) :
    ∀ (templates : List QuestTemplate) (qs : List Quest) (t : QuestTemplate),
      t ∈ templates → t.id = tid → t.ttype = "daily" → t.is_active = true →
      countInstances tid today qs = 0 →
      countInstances tid today (reset_daily_quests today templates qs) = 1 := by
  intro templates
  induction templates with
  | nil => intro qs t hmem; simp at hmem
  | cons t0 rest ih =>
    intro qs t hmem hid hdaily hactive h0
    rw [reset_daily_quests_cons]
    split_ifs with hcond hany
    · by_cases hid0 : t0.id = tid
      · exfalso
        rw [hid0] at hany
        have := (countInstances_pos_iff_any tid today qs).mp hany
        omega
      · rcases List.mem_cons.mp hmem with rfl | hmem2
        · exact absurd hid hid0
        · exact ih qs t hmem2 hid hdaily hactive h0
    · by_cases hid0 : t0.id = tid
      · have hqs2 : countInstances tid today (qs ++ [questFromTemplate t0 today]) = 1 := by
          rw [countInstances_append_singleton, h0]
          simp [questFromTemplate, hid0]
        rw [reset_preserves_count today tid rest
          (qs ++ [questFromTemplate t0 today]) (by omega)]
        exact hqs2
      · have hqs2 : countInstances tid today (qs ++ [questFromTemplate t0 today]) = 0 := by
          rw [countInstances_append_singleton, h0]
          simp [questFromTemplate, hid0]
        rcases List.mem_cons.mp hmem with rfl | hmem2
        · exact absurd hid hid0
        · exact ih _ t hmem2 hid hdaily hactive hqs2
    · rcases List.mem_cons.mp hmem with rfl | hmem2
      · exfalso
        apply hcond
        simp [hdaily, hactive]
      · exact ih qs t hmem2 hid hdaily hactive h0

/-- C6: for an active daily template with no instance for today yet, one
run of `reset_daily_quests` materialises exactly one instance, a second
run on the same day still leaves exactly one, and in general the reset
never creates an instance for a template that already has one today. -/
theorem resetDaily_idempotent_per_template (today : Nat)
    (templates : List QuestTemplate) (quests : List Quest) (t : QuestTemplate)
    (hmem : t ∈ templates) (hdaily : t.ttype = "daily")
    (hactive : t.is_active = true)
    (hnone : countInstances t.id today quests = 0) :
    countInstances t.id today (reset_daily_quests today templates quests) = 1 ∧
    countInstances t.id today
      (reset_daily_quests today templates
        (reset_daily_quests today templates quests)) = 1 ∧
    (∀ qs2 : List Quest, 1 ≤ countInstances t.id today qs2 →
      countInstances t.id today (reset_daily_quests today templates qs2) =
        countInstances t.id today qs2) := by
  have h1 := reset_creates_one today t.id templates quests t hmem rfl hdaily hactive hnone
  refine ⟨h1, ?_, reset_preserves_count today t.id templates⟩
  rw [reset_preserves_count today t.id templates _ (by omega)]
  exact h1

/-- Witness for C6 on a one-template catalog and an empty quest table. -/
theorem resetDaily_idempotent_per_template_witness :
    countInstances 1 0 (reset_daily_quests 0 [QuestTemplate.mk 1 1 "Run" "" "daily" true] []) = 1 ∧
    countInstances 1 0
      (reset_daily_quests 0 [QuestTemplate.mk 1 1 "Run" "" "daily" true]
        (reset_daily_quests 0 [QuestTemplate.mk 1 1 "Run" "" "daily" true] [])) = 1 :=
  ⟨(resetDaily_idempotent_per_template 0 [QuestTemplate.mk 1 1 "Run" "" "daily" true]
      [] (QuestTemplate.mk 1 1 "Run" "" "daily" true)
      (List.mem_singleton.mpr rfl) rfl rfl rfl).1,
   (resetDaily_idempotent_per_template 0 [QuestTemplate.mk 1 1 "Run" "" "daily" true]
      [] (QuestTemplate.mk 1 1 "Run" "" "daily" true)
      (List.mem_singleton.mpr rfl) rfl rfl rfl).2.1⟩

/-- Everything `checkAndAwardBadges` returns comes from the catalog and was
not among the already-earned ids. -/
theorem checkAndAwardBadges_sound (stats : BadgeStats) (cqc wc : Nat) :
    ∀ (avail : List Badge) (earned : List Nat) (b : Badge),
      b ∈ checkAndAwardBadges avail earned stats cqc wc →
      b ∈ avail ∧ ¬ b.id ∈ earned := by
  intro avail
  induction avail with
  | nil =>
    intro earned b hb
    simp [checkAndAwardBadges] at hb
  | cons badge rest ih =>
    intro earned b hb
    unfold checkAndAwardBadges at hb
    split_ifs at hb with hc ha
    · obtain ⟨h1, h2⟩ := ih earned b hb
      exact ⟨List.mem_cons_of_mem _ h1, h2⟩
    · rcases List.mem_cons.mp hb with rfl | hb2
      · refine ⟨List.mem_cons_self _ _, ?_⟩
        intro hmem
        exact hc (by simpa using hmem)
      · obtain ⟨h1, h2⟩ := ih earned b hb2
        exact ⟨List.mem_cons_of_mem _ h1, h2⟩
    · obtain ⟨h1, h2⟩ := ih earned b hb
      exact ⟨List.mem_cons_of_mem _ h1, h2⟩

/-- C9: a badge evaluation pass never returns a badge whose id is already
earned; in particular, after the ids newly earned in one pass are stored,
a later pass (with any stats and counts) never returns any of them again. -/
theorem badge_evaluation_never_reawards (availableBadges : List Badge)
    (earnedBadgeIds : List Nat) (stats : BadgeStats)
    (completedQuestsCount weeklyCount : Nat) :
    (∀ b ∈ checkAndAwardBadges availableBadges earnedBadgeIds stats
        completedQuestsCount weeklyCount, ¬ b.id ∈ earnedBadgeIds) ∧
    (∀ (stats2 : BadgeStats) (cqc2 wc2 : Nat) (b : Badge),
      b ∈ checkAndAwardBadges availableBadges earnedBadgeIds stats
        completedQuestsCount weeklyCount →
      ¬ b.id ∈ (checkAndAwardBadges availableBadges
          (earnedBadgeIds ++ (checkAndAwardBadges availableBadges earnedBadgeIds
            stats completedQuestsCount weeklyCount).map (fun x => x.id))
          stats2 cqc2 wc2).map (fun x => x.id)) := by
  constructor
  · intro b hb
    exact (checkAndAwardBadges_sound stats completedQuestsCount weeklyCount
      availableBadges earnedBadgeIds b hb).2
  · intro stats2 cqc2 wc2 b hb hmem
    rw [List.mem_map] at hmem
    obtain ⟨c, hc, hcid⟩ := hmem
    apply (checkAndAwardBadges_sound stats2 cqc2 wc2 availableBadges _ c hc).2
    rw [hcid]
    exact List.mem_append_right _ (List.mem_map.mpr ⟨b, hb, rfl⟩)

/-- Witness for C9 with the "First Steps" badge: earned on the first pass,
not re-earned on a second pass after its id is recorded. -/
theorem badge_evaluation_never_reawards_witness :
    ¬ (Badge.mk 1 "First Steps" "Complete your first quest" "fas fa-baby"
        "quest_count" 1).id ∈ ([] : List Nat) ∧
    ¬ (Badge.mk 1 "First Steps" "Complete your first quest" "fas fa-baby"
        "quest_count" 1).id ∈
      (checkAndAwardBadges
        [Badge.mk 1 "First Steps" "Complete your first quest" "fas fa-baby"
          "quest_count" 1]
        ([] ++ (checkAndAwardBadges
          [Badge.mk 1 "First Steps" "Complete your first quest" "fas fa-baby"
            "quest_count" 1] [] (BadgeStats.mk 1 1) 1 1).map (fun x => x.id))
        (BadgeStats.mk 1 1) 2 2).map (fun x => x.id) :=
  ⟨(badge_evaluation_never_reawards
      [Badge.mk 1 "First Steps" "Complete your first quest" "fas fa-baby"
        "quest_count" 1] [] (BadgeStats.mk 1 1) 1 1).1
      (Badge.mk 1 "First Steps" "Complete your first quest" "fas fa-baby"
        "quest_count" 1)
      (by rw [show checkAndAwardBadges
            [Badge.mk 1 "First Steps" "Complete your first quest" "fas fa-baby"
              "quest_count" 1] [] (BadgeStats.mk 1 1) 1 1 =
            [Badge.mk 1 "First Steps" "Complete your first quest" "fas fa-baby"
              "quest_count" 1] from rfl]
          exact List.mem_singleton.mpr rfl),
   (badge_evaluation_never_reawards
      [Badge.mk 1 "First Steps" "Complete your first quest" "fas fa-baby"
        "quest_count" 1] [] (BadgeStats.mk 1 1) 1 1).2
      (BadgeStats.mk 1 1) 2 2
      (Badge.mk 1 "First Steps" "Complete your first quest" "fas fa-baby"
        "quest_count" 1)
      (by rw [show checkAndAwardBadges
            [Badge.mk 1 "First Steps" "Complete your first quest" "fas fa-baby"
              "quest_count" 1] [] (BadgeStats.mk 1 1) 1 1 =
            [Badge.mk 1 "First Steps" "Complete your first quest" "fas fa-baby"
              "quest_count" 1] from rfl]
          exact List.mem_singleton.mpr rfl)⟩

end QuestBoard
